import Mathlib

/-!
Shallow embedding of the brave-mcp-search repository core logic: the
dual-window rate limiter, the paged backfill aggregation for web and
location search, the location detail join from src/src/server.py, and the
homepage resolution chain from find_homepages.py.
-/

namespace BraveSearch

/-- State of the RateLimit dataclass from src/src/server.py: the configured
ceilings per_second and per_month, the two counters held in the _requests
dict, and _last_reset.  Timestamps are modelled as rationals. -/
structure RateLimit where
  per_second : Nat
  per_month : Nat
  second : Nat
  month : Nat
  last_reset : ℚ
  deriving DecidableEq

/-- Creation state: __post_init__ zeroes both counters and stamps the window
with the current time. -/
def RateLimit.init (ps pm : Nat) (now : ℚ) : RateLimit :=
  { per_second := ps, per_month := pm, second := 0, month := 0, last_reset := now }

/-- Window slide at the top of RateLimit.check: when strictly more than one
time-unit has elapsed the short counter is zeroed and the window is
restamped; the month counter is untouched. -/
def RateLimit.slide (s : RateLimit) (now : ℚ) : RateLimit :=
  if 1 < now - s.last_reset then { s with second := 0, last_reset := now } else s

/-- RateLimit.check from src/src/server.py: slide the short window, then
either refuse (returning false together with the slid state, mirroring the
raised RateLimitError leaving the counters untouched) or bump both counters
and succeed. -/
def RateLimit.check (s : RateLimit) (now : ℚ) : Bool × RateLimit :=
  let s1 := s.slide now
  if s1.per_second ≤ s1.second ∨ s1.per_month ≤ s1.month then (false, s1)
  else (true, { s1 with second := s1.second + 1, month := s1.month + 1 })

/-- Sequence of check calls at the given instants; the flag is true when every
call in the sequence was let through. -/
def checkSeq (s : RateLimit) : List ℚ → Bool × RateLimit
  | [] => (true, s)
  | t :: ts =>
    let r := s.check t
    let rest := checkSeq r.2 ts
    (r.1 && rest.1, rest.2)

/-- Backfill while loop shared by _format_web_results and brave_local_search
in src/src/server.py: while the accumulated count is below the floor and the
offset is below 40, advance the offset by 20, fetch that page and append its
items.  Returns the accumulated items, the number of extra page fetches and
the final offset. -/
def backfill (f : Nat → List α) (minCount : Nat) (acc : List α) (off cnt : Nat) :
    List α × Nat × Nat :=
  if h : acc.length < minCount ∧ off < 40 then
    backfill f minCount (acc ++ f (off + 20)) (off + 20) (cnt + 1)
  else (acc, cnt, off)
termination_by 40 - off
decreasing_by omega

/-- _format_web_results: run the backfill loop when the first page is below
the floor, then slice the list to max min_results (length), a slice that
always keeps the whole list. -/
def format_web_results (f : Nat → List α) (data : List α) (min_results : Nat) :
    List α × Nat × Nat :=
  let r := if data.length < min_results then backfill f min_results data 0 0
           else (data, 0, 0)
  (r.1.take (max min_results r.1.length), r.2.1, r.2.2)

/-- brave_web_search body after its admission check: fetch the first page at
the clamped offset and aggregate with a floor of 10.  The second component
counts every page fetch including the initial one.  The caller supplied count
is ignored by the source, which always requests 20 items per page. -/
def brave_web_search (f : Nat → List α) (offset : Nat) : List α × Nat :=
  let data := f (min offset 9)
  let r := format_web_results f data 10
  (r.1, 1 + r.2.1)

/-- Entry of a locations.results array: only the presence of the id field
matters to the embedded logic. -/
structure LocEntry where
  id : Option String
  deriving DecidableEq

/-- _extract_location_ids: keep the entries carrying an id and read it. -/
def extract_location_ids (rs : List LocEntry) : List String :=
  (rs.filter (fun r => r.id.isSome)).map (fun r => r.id.getD "")

/-- Address object of a PoI; a missing address object behaves as the record
with every component absent. -/
structure Address where
  streetAddress : Option String
  addressLocality : Option String
  addressRegion : Option String
  postalCode : Option String
  deriving DecidableEq

/-- Rating object of a PoI; the value is kept as its rendered text. -/
structure Rating where
  ratingValue : Option String
  ratingCount : Option Nat
  deriving DecidableEq

/-- PoI entry of the local/pois payload.  A rating of none models a missing or
empty rating object, which the source treats as falsy. -/
structure Poi where
  id : Option String
  name : Option String
  phone : Option String
  priceRange : Option String
  address : Address
  rating : Option Rating
  openingHours : List String
  deriving DecidableEq

/-- Parsed local/pois payload. -/
structure PoisPayload where
  results : List Poi
  deriving DecidableEq

/-- Parsed local/descriptions payload: the descriptions mapping from location
id to text. -/
structure DescPayload where
  descriptions : List (String × String)
  deriving DecidableEq

/-- Error taxonomy of the embedded code paths: the raised RateLimitError, a
transport level failure of an HTTP call, and a KeyError from direct dict
indexing. -/
inductive SrvErr where
  | rateLimited
  | transport
  | keyError
  deriving DecidableEq

/-- HTTP response as the handlers see it: a status code and the parsed JSON
body. -/
structure HttpResp (α : Type) where
  status : Nat
  body : α
  deriving DecidableEq

/-- The location dict built per PoI inside _format_local_results, before the
final string rendering. -/
structure Location where
  name : String
  address : String
  phone : String
  rating : String
  price : String
  hours : String
  description : String
  deriving DecidableEq

/-- _format_address: join the nonempty components with a comma, giving the
not-available marker when everything is empty. -/
def format_address (addr : Address) : String :=
  let components := [addr.streetAddress.getD "", addr.addressLocality.getD "",
    addr.addressRegion.getD "", addr.postalCode.getD ""]
  let joined := String.intercalate ", " (components.filter (fun c => c != ""))
  if joined = "" then "N/A" else joined

/-- _format_rating: a falsy rating renders as not available. -/
def format_rating : Option Rating → String
  | none => "N/A"
  | some r => (r.ratingValue.getD "N/A") ++ " (" ++
      toString (r.ratingCount.getD 0) ++ " reviews)"

/-- One iteration of the loop in _format_local_results: every field is read
with a defaulting get except the id, which is indexed directly and raises a
KeyError when absent; the description is looked up in the descriptions map
with the not-available default. -/
def buildLocation (descs : DescPayload) (poi : Poi) : Except SrvErr Location :=
  match poi.id with
  | none => .error .keyError
  | some pid =>
    .ok { name := poi.name.getD "N/A"
          address := format_address poi.address
          phone := poi.phone.getD "N/A"
          rating := format_rating poi.rating
          price := poi.priceRange.getD "N/A"
          hours := (let h := String.intercalate ", " poi.openingHours
                    if h = "" then "N/A" else h)
          description := ((descs.descriptions.lookup pid).getD
            "No description available") }

/-- For loop of _format_local_results over the PoI list: the first raised
KeyError aborts the whole formatting. -/
def formatLocList (descs : DescPayload) : List Poi → Except SrvErr (List Location)
  | [] => .ok []
  | poi :: rest =>
    match buildLocation descs poi with
    | .error e => .error e
    | .ok loc =>
      match formatLocList descs rest with
      | .error e => .error e
      | .ok locs => .ok (loc :: locs)

/-- _format_local_results up to the final text rendering, which is pure
presentation of the location records. -/
def format_local_results (pois : PoisPayload) (descs : DescPayload) :
    Except SrvErr (List Location) :=
  formatLocList descs pois.results

/-- _get_location_details: the two endpoint calls run under asyncio.gather
over the same id list and both are awaited; a raised transport error from
either aborts the pair (the model reports the pois error first when both
fail, one determinization of the gather).  The bodies are returned as parsed
by json; raise_for_status is never called here, so the HTTP status field of
either response is not consulted. -/
def get_location_details (poisR : Except SrvErr (HttpResp PoisPayload))
    (descR : Except SrvErr (HttpResp DescPayload)) :
    Except SrvErr (PoisPayload × DescPayload) :=
  match poisR, descR with
  | .error e, _ => .error e
  | .ok _, .error e => .error e
  | .ok p, .ok d => .ok (p.body, d.body)

/-- Outcome of brave_local_search: either the substituted web search result or
the formatted location records. -/
inductive LocalOutcome (β : Type) where
  | web (r : β)
  | locations (ls : List Location)
  deriving DecidableEq

/-- brave_local_search body after its admission check.  The initial page is
already parsed into its locations.results entries; page gives the parsed
entries of the extra pages fetched by the while loop; details stands for
_get_location_details applied to the chosen ids; webSearchF stands for the
brave_web_search tool applied to the same query, used when no location id was
extracted from the initial page. -/
def brave_local_search (query : String)
    (webSearchF : String → Except SrvErr β)
    (initial : List LocEntry)
    (page : Nat → List LocEntry)
    (details : List String → Except SrvErr (PoisPayload × DescPayload)) :
    Except SrvErr (LocalOutcome β) :=
  let location_ids := extract_location_ids initial
  if location_ids.isEmpty then (webSearchF query).map LocalOutcome.web
  else
    let r := backfill (fun off => extract_location_ids (page off)) 10 location_ids 0 0
    let ids := r.1
    match details (ids.take (max 10 ids.length)) with
    | .error e => .error e
    | .ok pd => (format_local_results pd.1 pd.2).map LocalOutcome.locations

/-- Upstream visible events of the embedded handlers: a rate_limit.check call
or a page fetch at a given offset. -/
inductive ApiEvent where
  | checkCall
  | fetchPage (off : Nat)
  deriving DecidableEq

/-- Events of the backfill while loop: one fetchPage per iteration and no
admission check anywhere in the loop body. -/
def backfillTrace (lenF : Nat → Nat) (minCount accLen off : Nat) : List ApiEvent :=
  if h : accLen < minCount ∧ off < 40 then
    ApiEvent.fetchPage (off + 20) ::
      backfillTrace lenF minCount (accLen + lenF (off + 20)) (off + 20)
  else []
termination_by 40 - off
decreasing_by omega

/-- Upstream visible events of one successful brave_web_search call: the
single rate_limit.check, the initial page fetch, then the backfill fetches,
where lenF off is the number of results the upstream returns for the page at
that offset. -/
def webSearchTrace (lenF : Nat → Nat) (min_results : Nat) : List ApiEvent :=
  ApiEvent.checkCall :: ApiEvent.fetchPage 0 ::
    (if lenF 0 < min_results then backfillTrace lenF min_results (lenF 0) 0 else [])

/-- Upstream visible events of one successful brave_local_search call whose
initial page yielded at least one location id: check, initial fetch, then the
id backfill fetches, where idsLen off is the number of ids extracted from the
page at that offset. -/
def localSearchTrace (idsLen : Nat → Nat) : List ApiEvent :=
  ApiEvent.checkCall :: ApiEvent.fetchPage 0 :: backfillTrace idsLen 10 (idsLen 0) 0

/-- Helper of eachFetchChecked walking consecutive pairs. -/
def pairsChecked : ApiEvent → List ApiEvent → Bool
  | _, [] => true
  | prev, e :: rest =>
    (match e with
     | ApiEvent.fetchPage _ => decide (prev = ApiEvent.checkCall)
     | ApiEvent.checkCall => true) && pairsChecked e rest

/-- True when every fetchPage event of the trace is immediately preceded by a
rate-limit check event. -/
def eachFetchChecked : List ApiEvent → Bool
  | [] => true
  | e :: rest =>
    (match e with
     | ApiEvent.fetchPage _ => false
     | ApiEvent.checkCall => true) && pairsChecked e rest

/-- Deny set of find_homepages.py. -/
def BLACKLIST : List String := ["wikipedia.org", "facebook.com", "twitter.com", "linkedin.com"]

/-- Prefix test on char lists. -/
def listStarts : List Char → List Char → Bool
  | [], _ => true
  | _ :: _, [] => false
  | a :: as, b :: bs => a == b && listStarts as bs

/-- Contiguous substring test on char lists; models the Python in operator on
strings. -/
def subList (needle : List Char) : List Char → Bool
  | [] => needle.isEmpty
  | b :: bs => listStarts needle (b :: bs) || subList needle bs

/-- Substring test on strings. -/
def strContains (needle hay : String) : Bool := subList needle.toList hay.toList

/-- Models the Python lower method for the characters the program meets. -/
def strLower (s : String) : String := String.mk (s.toList.map Char.toLower)

/-- True when the first string closes the second. -/
def strEnds (needle hay : String) : Bool :=
  listStarts needle.toList.reverse hay.toList.reverse

/-- Start of the netloc of a URL, modelling urllib.parse for the URL shapes
the program handles: either the string opens with two slashes, or a scheme
followed by a colon and two slashes comes first. -/
def netlocOf (cs : List Char) : Option (List Char) :=
  if cs.take 2 = ['/', '/'] then some (cs.drop 2)
  else
    let scheme := cs.takeWhile (fun c => c != ':' && c != '/')
    match cs.drop scheme.length with
    | ':' :: rest => if rest.take 2 = ['/', '/'] then some (rest.drop 2) else none
    | _ => none

/-- Models urlparse(url).hostname: the netloc up to a path, query or fragment
delimiter, with userinfo and port stripped and letters lowered; none when the
URL carries no host. -/
def hostname (url : String) : Option String :=
  match netlocOf url.toList with
  | none => none
  | some rest =>
    let netloc := rest.takeWhile (fun c => c != '/' && c != '?' && c != '#')
    let afterAt := (netloc.reverse.takeWhile (fun c => c != '@')).reverse
    let host := afterAt.takeWhile (fun c => c != ':')
    if host.isEmpty then none else some (String.mk (host.map Char.toLower))

/-- is_official_candidate from find_homepages.py: reject when any blacklist
domain occurs inside the host as a substring, otherwise require the lowered
company name to occur inside the lowered host. -/
def is_official_candidate (url company : String) : Bool :=
  let host := (hostname url).getD ""
  if BLACKLIST.any (fun domain => strContains domain host) then false
  else strContains (strLower company) (strLower host)

/-- First for loop of get_brave_homepage, in rank order. -/
def passOne (company : String) : List (Option String) → Option String
  | [] => none
  | r :: rs =>
    let url := r.getD ""
    if is_official_candidate url company then some url else passOne company rs

/-- Second for loop of get_brave_homepage: accept the first result whose exact
parsed hostname is not an element of the blacklist; a URL without a hostname
is accepted, since none is not a member of the set. -/
def passTwo : List (Option String) → Option String
  | [] => none
  | r :: rs =>
    let url := r.getD ""
    match hostname url with
    | some h => if BLACKLIST.contains h then passTwo rs else some url
    | none => some url

/-- get_brave_homepage scan over the parsed results list; each entry is the
url field of one result, none when that field is absent. -/
def get_brave_homepage (company : String) (results : List (Option String)) :
    Option String :=
  match passOne company results with
  | some url => some url
  | none => passTwo results

/-- Acceptance test of the first pass: not substring-denied and the lowered
name occurs in the lowered host. -/
def passOnePred (company : String) (r : Option String) : Bool :=
  is_official_candidate (r.getD "") company

/-- Acceptance test of the second pass: the parsed hostname is not a literal
element of the deny set, with a hostless URL accepted. -/
def passTwoPred (r : Option String) : Bool :=
  match hostname (r.getD "") with
  | some h => !(BLACKLIST.contains h)
  | none => true

/-- Two-pass scan restated with List.find? and the predicates of the source;
used to state the rank-order first-match reading of the scan. -/
def get_homepage_twopass (company : String) (results : List (Option String)) :
    Option String :=
  match results.find? (passOnePred company) with
  | some r => some (r.getD "")
  | none =>
    match results.find? passTwoPred with
    | some r => some (r.getD "")
    | none => none

/-- Deny membership as the claim words it: exact or suffix match of a deny
set domain against the host. -/
def denyTail (host : String) : Bool :=
  BLACKLIST.any (fun d => host == d || strEnds (String.append "." d) host)

/-- Modelled from the claim wording, for comparison with the source scan:
both passes decide deny membership by exact or suffix match, and pass one
additionally requires the case-insensitive name match. -/
def get_homepage_claimed (company : String) (results : List (Option String)) :
    Option String :=
  match results.find? (fun r =>
      let host := (hostname (r.getD "")).getD ""
      !(denyTail host) && strContains (strLower company) (strLower host)) with
  | some r => some (r.getD "")
  | none =>
    match results.find? (fun r => !(denyTail ((hostname (r.getD "")).getD ""))) with
    | some r => some (r.getD "")
    | none => none

/-- get_wikidata_homepage: the whole body sits in one try block, so a raised
transport error anywhere gives none; search entries are modelled by their id
field and claim entries by the value at the mainsnak datavalue path, none
when a key on the path is absent (the raised KeyError is swallowed). -/
def get_wikidata_homepage (searchResp : Except SrvErr (List (Option String)))
    (claimsResp : String → Except SrvErr (List (Option String))) : Option String :=
  match searchResp with
  | .error _ => none
  | .ok [] => none
  | .ok (entry :: _) =>
    match entry with
    | none => none
    | some qid =>
      match claimsResp qid with
      | .error _ => none
      | .ok [] => none
      | .ok (c :: _) => c

/-- Strategy chain of the main block of find_homepages.py: brave first,
wikidata only when the brave result is falsy, and the final or supplies the
not-found marker. -/
def resolve_homepage (braveOut wikidataOut : Option String) : String :=
  let url := match braveOut with
    | some u => if u = "" then wikidataOut else some u
    | none => wikidataOut
  match url with
  | some u => if u = "" then "Not found" else u
  | none => "Not found"

/-- Helper: a run of admitted calls inside one short window.  When every
instant stays within one time-unit of the window stamp and both ceilings
leave room for the whole run, every call succeeds and both counters advance
by exactly the run length while the stamp never moves. -/
theorem checkSeq_all_ok (ts : List ℚ) : ∀ (s : RateLimit),
    (∀ u ∈ ts, u - s.last_reset ≤ 1) →
    s.second + ts.length ≤ s.per_second →
    s.month + ts.length ≤ s.per_month →
    (checkSeq s ts).1 = true ∧
      (checkSeq s ts).2 = { s with second := s.second + ts.length,
                                   month := s.month + ts.length } := by
  induction ts with
  | nil =>
    intro s _ _ _
    refine ⟨rfl, ?_⟩
    cases s
    simp [checkSeq]
  | cons t ts ih =>
    intro s hmem hsec hmon
    simp only [List.length_cons] at hsec hmon
    have hns : s.slide t = s := by
      have h1 : t - s.last_reset ≤ 1 := hmem t (List.mem_cons_self t ts)
      simp [RateLimit.slide, not_lt.2 h1]
    have hchk : s.check t = (true, { s with second := s.second + 1, month := s.month + 1 }) := by
      have h2 : ¬ (s.per_second ≤ s.second ∨ s.per_month ≤ s.month) := by omega
      simp [RateLimit.check, hns, h2]
    have hrec := ih { s with second := s.second + 1, month := s.month + 1 }
      (by intro u hu; exact hmem u (List.mem_cons_of_mem t hu))
      (by simpa using by omega)
      (by simpa using by omega)
    refine ⟨?_, ?_⟩
    · simp [checkSeq, hchk, hrec.1]
    · simp only [checkSeq, hchk]
      rw [hrec.2]
      cases s
      simp
      omega

/-- C1: RateGovernor admission behaves as the reference step function.  The
conjunction states: the short window reset zeroes the short counter and
restamps the window while leaving the month counter alone, and no reset
happens otherwise; a refused call leaves the slid state untouched; an
admitted call bumps both counters by exactly one; refusal happens exactly
when a ceiling is reached; a ceiling of zero refuses every call; and inside
one short window a fresh counter admits exactly per_second calls with the
next one refused, provided the month ceiling leaves room. -/
theorem spec_C1_rate_governor :
    (∀ (s : RateLimit) (now : ℚ), 1 < now - s.last_reset →
        s.slide now = { s with second := 0, last_reset := now }) ∧
    (∀ (s : RateLimit) (now : ℚ), ¬ 1 < now - s.last_reset → s.slide now = s) ∧
    (∀ (s : RateLimit) (now : ℚ), (s.slide now).month = s.month) ∧
    (∀ (s : RateLimit) (now : ℚ), (s.check now).1 = false → (s.check now).2 = s.slide now) ∧
    (∀ (s : RateLimit) (now : ℚ), (s.check now).1 = true →
        (s.check now).2 = { s.slide now with second := (s.slide now).second + 1,
                                             month := (s.slide now).month + 1 }) ∧
    (∀ (s : RateLimit) (now : ℚ),
        (s.check now).1 = false ↔
          (s.per_second ≤ (s.slide now).second ∨ s.per_month ≤ s.month)) ∧
    (∀ (s : RateLimit) (now : ℚ), s.per_second = 0 ∨ s.per_month = 0 →
        (s.check now).1 = false) ∧
    (∀ (s : RateLimit) (ts : List ℚ) (t : ℚ),
        s.second = 0 → ts.length = s.per_second →
        s.month + s.per_second ≤ s.per_month →
        (∀ u ∈ ts, u - s.last_reset ≤ 1) → t - s.last_reset ≤ 1 →
        (checkSeq s ts).1 = true ∧ ((checkSeq s ts).2.check t).1 = false) := by
  have hslide_limits : ∀ (s : RateLimit) (now : ℚ),
      (s.slide now).per_second = s.per_second ∧ (s.slide now).per_month = s.per_month ∧
      (s.slide now).month = s.month := by
    intro s now
    by_cases h : 1 < now - s.last_reset <;> simp [RateLimit.slide, h]
  refine ⟨?_, ?_, ?_, ?_, ?_, ?_, ?_, ?_⟩
  · intro s now h; simp [RateLimit.slide, h]
  · intro s now h; simp [RateLimit.slide, h]
  · intro s now; exact (hslide_limits s now).2.2
  · intro s now h
    by_cases hc : (s.slide now).per_second ≤ (s.slide now).second ∨
        (s.slide now).per_month ≤ (s.slide now).month
    · simp [RateLimit.check, hc]
    · simp [RateLimit.check, hc] at h
  · intro s now h
    by_cases hc : (s.slide now).per_second ≤ (s.slide now).second ∨
        (s.slide now).per_month ≤ (s.slide now).month
    · simp [RateLimit.check, hc] at h
    · simp [RateLimit.check, hc]
  · intro s now
    obtain ⟨h1, h2, h3⟩ := hslide_limits s now
    by_cases hc : (s.slide now).per_second ≤ (s.slide now).second ∨
        (s.slide now).per_month ≤ (s.slide now).month
    · constructor
      · intro _
        omega
      · intro _
        simp [RateLimit.check, hc]
    · constructor
      · intro hf
        have htrue : (s.check now).1 = true := by simp [RateLimit.check, hc]
        rw [htrue] at hf
        cases hf
      · intro hor
        exact absurd (show (s.slide now).per_second ≤ (s.slide now).second ∨
            (s.slide now).per_month ≤ (s.slide now).month by omega) hc
  · intro s now h
    obtain ⟨h1, h2, h3⟩ := hslide_limits s now
    have hc : (s.slide now).per_second ≤ (s.slide now).second ∨
        (s.slide now).per_month ≤ (s.slide now).month := by omega
    simp [RateLimit.check, hc]
  · intro s ts t h0 hlen hmon hmem ht
    obtain ⟨hok, hfin⟩ := checkSeq_all_ok ts s hmem (by omega) (by omega)
    refine ⟨hok, ?_⟩
    rw [hfin]
    have hns : RateLimit.slide { s with second := s.second + ts.length, month := s.month + ts.length } t = { s with second := s.second + ts.length, month := s.month + ts.length } := by
      simp [RateLimit.slide, not_lt.2 ht]
    have hc : ({ s with second := s.second + ts.length, month := s.month + ts.length } : RateLimit).per_second ≤ s.second + ts.length ∨ ({ s with second := s.second + ts.length, month := s.month + ts.length } : RateLimit).per_month ≤ s.month + ts.length := by
      left
      show s.per_second ≤ s.second + ts.length
      omega
    simp [RateLimit.check, hns, hc]

/-- C1 witness: a fresh governor with the source defaults, one call inside
the first second admitted and the next refused. -/
theorem spec_C1_rate_governor_witness :
    (checkSeq (RateLimit.init 1 2000 0) [(0 : ℚ)]).1 = true ∧
      ((checkSeq (RateLimit.init 1 2000 0) [(0 : ℚ)]).2.check (1 : ℚ)).1 = false := by
  have h := spec_C1_rate_governor.2.2.2.2.2.2.2 (RateLimit.init 1 2000 0) [(0 : ℚ)] 1
    rfl rfl (by simp [RateLimit.init]) (by simp [RateLimit.init]) (by simp [RateLimit.init])
  exact h

/-- Unfolding equation of the backfill loop. -/
theorem backfill_eq (f : Nat → List α) (m : Nat) (acc : List α) (off cnt : Nat) :
    backfill f m acc off cnt =
      if acc.length < m ∧ off < 40 then
        backfill f m (acc ++ f (off + 20)) (off + 20) (cnt + 1)
      else (acc, cnt, off) := by
  rw [backfill]
  exact dite_eq_ite

/-- Unfolding equation of the backfill trace. -/
theorem backfillTrace_eq (lenF : Nat → Nat) (m accLen off : Nat) :
    backfillTrace lenF m accLen off =
      if accLen < m ∧ off < 40 then
        ApiEvent.fetchPage (off + 20) ::
          backfillTrace lenF m (accLen + lenF (off + 20)) (off + 20)
      else [] := by
  rw [backfillTrace]
  exact dite_eq_ite

/-- The loop performs at most k extra fetches when k steps of 20 reach the
offset ceiling. -/
theorem backfill_count_le (f : Nat → List α) (m : Nat) :
    ∀ (k : Nat) (acc : List α) (off cnt : Nat), 40 ≤ off + 20 * k →
      (backfill f m acc off cnt).2.1 ≤ cnt + k := by
  intro k
  induction k with
  | zero =>
    intro acc off cnt hk
    have hc : ¬ (acc.length < m ∧ off < 40) := by omega
    rw [backfill_eq, if_neg hc]
    show cnt ≤ cnt + 0
    omega
  | succ k ih =>
    intro acc off cnt hk
    rw [backfill_eq]
    by_cases hc : acc.length < m ∧ off < 40
    · rw [if_pos hc]
      have h := ih (acc ++ f (off + 20)) (off + 20) (cnt + 1) (by omega)
      omega
    · rw [if_neg hc]
      show cnt ≤ cnt + (k + 1)
      omega

/-- On exit the loop has met the floor or reached the offset ceiling. -/
theorem backfill_stop (f : Nat → List α) (m : Nat) :
    ∀ (k : Nat) (acc : List α) (off cnt : Nat), 40 ≤ off + 20 * k →
      m ≤ (backfill f m acc off cnt).1.length ∨ 40 ≤ (backfill f m acc off cnt).2.2 := by
  intro k
  induction k with
  | zero =>
    intro acc off cnt hk
    have hc : ¬ (acc.length < m ∧ off < 40) := by omega
    rw [backfill_eq, if_neg hc]
    right
    show 40 ≤ off
    omega
  | succ k ih =>
    intro acc off cnt hk
    rw [backfill_eq]
    by_cases hc : acc.length < m ∧ off < 40
    · rw [if_pos hc]
      exact ih (acc ++ f (off + 20)) (off + 20) (cnt + 1) (by omega)
    · rw [if_neg hc]
      rcases not_and_or.mp hc with h | h
      · left
        show m ≤ acc.length
        omega
      · right
        show 40 ≤ off
        omega

/-- A loop entered with the floor already met returns at once, with no
fetch. -/
theorem backfill_done (f : Nat → List α) (m : Nat) (acc : List α) (off cnt : Nat)
    (h : m ≤ acc.length) : backfill f m acc off cnt = (acc, cnt, off) := by
  have hc : ¬ (acc.length < m ∧ off < 40) := by omega
  rw [backfill_eq, if_neg hc]

/-- C3: at the failing input (three results per page, floor 10) the upstream
events of one brave_web_search call are one admission check followed by three
page fetches; the backfill fetches at offsets 20 and 40 run with no admission
check in their loop iterations, so the trace violates the discipline that
every page fetch is immediately preceded by an admission.  The
brave_local_search backfill loop produces the same shape. -/
theorem spec_C3_unadmitted_backfill :
    webSearchTrace (fun _ => 3) 10 =
      [ApiEvent.checkCall, ApiEvent.fetchPage 0, ApiEvent.fetchPage 20,
        ApiEvent.fetchPage 40] ∧
    eachFetchChecked (webSearchTrace (fun _ => 3) 10) = false ∧
    localSearchTrace (fun _ => 3) =
      [ApiEvent.checkCall, ApiEvent.fetchPage 0, ApiEvent.fetchPage 20,
        ApiEvent.fetchPage 40] ∧
    eachFetchChecked (localSearchTrace (fun _ => 3)) = false := by
  have ht : backfillTrace (fun _ => 3) 10 3 0 =
      [ApiEvent.fetchPage 20, ApiEvent.fetchPage 40] := by
    rw [backfillTrace_eq, if_pos (by decide)]
    rw [backfillTrace_eq]
    rw [if_pos (by decide)]
    rw [backfillTrace_eq, if_neg (by decide)]
  have hw : webSearchTrace (fun _ => 3) 10 =
      [ApiEvent.checkCall, ApiEvent.fetchPage 0, ApiEvent.fetchPage 20,
        ApiEvent.fetchPage 40] := by
    simp only [webSearchTrace]
    rw [if_pos (by decide)]
    rw [ht]
  have hl : localSearchTrace (fun _ => 3) =
      [ApiEvent.checkCall, ApiEvent.fetchPage 0, ApiEvent.fetchPage 20,
        ApiEvent.fetchPage 40] := by
    simp only [localSearchTrace]
    rw [ht]
  refine ⟨hw, ?_, hl, ?_⟩
  · rw [hw]
    decide
  · rw [hl]
    decide

/-- C4 counterexample: with an upstream returning three items per page on
every page, the web aggregation with floor 10 issues 3 page fetches in total
and returns 9 items, so it is false that it issues exactly 4 fetches and
returns at least 10 items. -/
theorem spec_C4_counterexample :
    (brave_web_search (fun _ => ([1, 2, 3] : List Nat)) 0).2 = 3 ∧
    ((brave_web_search (fun _ => ([1, 2, 3] : List Nat)) 0).1).length = 9 ∧
    ¬ ((brave_web_search (fun _ => ([1, 2, 3] : List Nat)) 0).2 = 4 ∧
        10 ≤ ((brave_web_search (fun _ => ([1, 2, 3] : List Nat)) 0).1).length) := by
  have hb : backfill (fun _ => ([1, 2, 3] : List Nat)) 10 [1, 2, 3] 0 0 =
      ([1, 2, 3, 1, 2, 3, 1, 2, 3], 2, 40) := by
    rw [backfill_eq, if_pos (by decide)]
    rw [backfill_eq]
    rw [if_pos (by decide)]
    rw [backfill_eq]
    rw [if_neg (by decide)]
    decide
  have h : brave_web_search (fun _ => ([1, 2, 3] : List Nat)) 0 =
      ([1, 2, 3, 1, 2, 3, 1, 2, 3], 3) := by
    simp only [brave_web_search, format_web_results]
    rw [if_pos (by decide)]
    rw [hb]
    decide
  rw [h]
  refine ⟨rfl, rfl, ?_⟩
  intro hcl
  exact absurd hcl.1 (by decide)

/-- C4 amended: with the offset ceiling 40 and the page step 20 of the
source, the three-per-page scenario issues exactly 3 page fetches and returns
its 9 accumulated items, fewer than the floor, without error; in general the
loop returns at once when the floor is already met, performing no further
fetch, and on exit either the floor is met or the offset ceiling has been
reached, the accumulated items being returned in both cases. -/
theorem spec_C4_floor_backfill :
    ((brave_web_search (fun _ => ([1, 2, 3] : List Nat)) 0).2 = 3 ∧
      ((brave_web_search (fun _ => ([1, 2, 3] : List Nat)) 0).1).length = 9) ∧
    (∀ (α : Type) (f : Nat → List α) (m : Nat) (acc : List α) (off cnt : Nat),
        m ≤ acc.length → backfill f m acc off cnt = (acc, cnt, off)) ∧
    (∀ (α : Type) (f : Nat → List α) (data : List α) (m : Nat),
        m ≤ (format_web_results f data m).1.length ∨
          40 ≤ (format_web_results f data m).2.2) := by
  refine ⟨⟨spec_C4_counterexample.1, spec_C4_counterexample.2.1⟩, ?_, ?_⟩
  · intro α f m acc off cnt h
    exact backfill_done f m acc off cnt h
  · intro α f data m
    simp only [format_web_results]
    by_cases h : data.length < m
    · rw [if_pos h]
      have hs := backfill_stop f m 2 data 0 0 (by omega)
      rcases hs with hs | hs
      · left
        simp only [List.length_take]
        omega
      · right
        simpa using hs
    · rw [if_neg h]
      left
      simp only [List.length_take]
      omega

/-- C4 witness: a first page already at the floor is returned unchanged with
no extra fetch. -/
theorem spec_C4_floor_backfill_witness :
    10 ≤ ([0, 1, 2, 3, 4, 5, 6, 7, 8, 9] : List Nat).length ∧
      backfill (fun _ => ([1] : List Nat)) 10 [0, 1, 2, 3, 4, 5, 6, 7, 8, 9] 0 0 =
        ([0, 1, 2, 3, 4, 5, 6, 7, 8, 9], 0, 0) :=
  ⟨by decide, spec_C4_floor_backfill.2.1 Nat (fun _ => [1]) 10
    [0, 1, 2, 3, 4, 5, 6, 7, 8, 9] 0 0 (by decide)⟩

/-- C10: for every input and upstream behavior, the web backfill and the
location id backfill each issue at most two extra page fetches beyond the
initial one, since the offset advances by 20 per iteration under the guard
offset < 40. -/
theorem spec_C10_fetch_bound :
    (∀ (α : Type) (f : Nat → List α) (data : List α) (min_results : Nat),
        (format_web_results f data min_results).2.1 ≤ 2) ∧
    (∀ (page : Nat → List LocEntry) (ids : List String),
        (backfill (fun off => extract_location_ids (page off)) 10 ids 0 0).2.1 ≤ 2) := by
  constructor
  · intro α f data m
    simp only [format_web_results]
    by_cases h : data.length < m
    · rw [if_pos h]
      simpa using backfill_count_le f m 2 data 0 0 (by omega)
    · rw [if_neg h]
      simp
  · intro page ids
    simpa using backfill_count_le (fun off => extract_location_ids (page off)) 10 2 ids 0 0
      (by omega)

/-- C5: when the location id extraction of the initial page yields no
identifier, brave_local_search returns the web search aggregation for the
same query as its outcome, rather than an empty result set. -/
theorem spec_C5_web_fallback (query : String) (webSearchF : String → Except SrvErr β)
    (initial : List LocEntry) (page : Nat → List LocEntry)
    (details : List String → Except SrvErr (PoisPayload × DescPayload))
    (h : extract_location_ids initial = []) :
    brave_local_search query webSearchF initial page details =
      (webSearchF query).map LocalOutcome.web := by
  simp [brave_local_search, h]

/-- C5 witness: an initial page with a single id-less entry extracts no id
and the call returns the web search outcome of the same query. -/
theorem spec_C5_web_fallback_witness :
    extract_location_ids [(⟨none⟩ : LocEntry)] = [] ∧
      brave_local_search "pizza" (fun q => Except.ok q) [(⟨none⟩ : LocEntry)]
        (fun _ => []) (fun _ => Except.ok (⟨[]⟩, ⟨[]⟩)) =
        Except.ok (LocalOutcome.web "pizza") := by
  refine ⟨rfl, ?_⟩
  rw [spec_C5_web_fallback "pizza" (fun q => Except.ok q) [(⟨none⟩ : LocEntry)]
    (fun _ => []) (fun _ => Except.ok (⟨[]⟩, ⟨[]⟩)) rfl]
  rfl

/-- C6 counterexample: a points-of-interest response carrying HTTP status 500
does not fail the detail fetch: both bodies are parsed and returned, because
_get_location_details never consults the status.  This refutes the claim
that a non-2xx status makes the whole call fail. -/
theorem spec_C6_counterexample :
    get_location_details (Except.ok (⟨500, ⟨[]⟩⟩ : HttpResp PoisPayload))
        (Except.ok (⟨200, ⟨[]⟩⟩ : HttpResp DescPayload)) =
      Except.ok (⟨[]⟩, ⟨[]⟩) := rfl

/-- C6 amended: both detail fetches are awaited and a transport error in
either fails the whole call with no partial result; the HTTP status is never
consulted, a successful transport with any status having its body returned;
and in the join a PoI whose id has no entry in the descriptions map is
emitted with the no-description marker. -/
theorem spec_C6_detail_join :
    (∀ (e : SrvErr) (r : Except SrvErr (HttpResp DescPayload)),
        get_location_details (Except.error e) r = Except.error e) ∧
    (∀ (p : HttpResp PoisPayload) (e : SrvErr),
        get_location_details (Except.ok p) (Except.error e) = Except.error e) ∧
    (∀ (p : HttpResp PoisPayload) (d : HttpResp DescPayload),
        get_location_details (Except.ok p) (Except.ok d) = Except.ok (p.body, d.body)) ∧
    (∀ (descs : DescPayload) (poi : Poi) (pid : String),
        poi.id = some pid → descs.descriptions.lookup pid = none →
        ∃ loc, buildLocation descs poi = Except.ok loc ∧
          loc.description = "No description available") := by
  refine ⟨?_, ?_, ?_, ?_⟩
  · intro e r
    cases r <;> rfl
  · intro p e
    rfl
  · intro p d
    rfl
  · intro descs poi pid hid hlk
    refine ⟨{ name := poi.name.getD "N/A", address := format_address poi.address, phone := poi.phone.getD "N/A", rating := format_rating poi.rating, price := poi.priceRange.getD "N/A", hours := (let h := String.intercalate ", " poi.openingHours; if h = "" then "N/A" else h), description := "No description available" }, ?_, rfl⟩
    simp [buildLocation, hid, hlk]

/-- C6 witness: a transport error on the pois fetch fails the pair, and a
joined PoI with an unmatched id carries the no-description marker. -/
theorem spec_C6_detail_join_witness :
    get_location_details (Except.error SrvErr.transport)
        (Except.ok (⟨200, ⟨[]⟩⟩ : HttpResp DescPayload)) = Except.error SrvErr.transport ∧
      ∃ loc, buildLocation ⟨[]⟩
          (⟨some "id1", none, none, none, ⟨none, none, none, none⟩, none, []⟩ : Poi) =
          Except.ok loc ∧ loc.description = "No description available" :=
  ⟨spec_C6_detail_join.1 SrvErr.transport (Except.ok ⟨200, ⟨[]⟩⟩),
    spec_C6_detail_join.2.2.2 ⟨[]⟩
      ⟨some "id1", none, none, none, ⟨none, none, none, none⟩, none, []⟩ "id1" rfl rfl⟩

/-- The first for loop returns the first result accepted by the first-pass
test, in rank order. -/
theorem passOne_eq_find (company : String) (rs : List (Option String)) :
    passOne company rs =
      (rs.find? (passOnePred company)).map (fun r => r.getD "") := by
  induction rs with
  | nil => rfl
  | cons r rs ih =>
    by_cases h : is_official_candidate (r.getD "") company
    · simp [passOne, List.find?, passOnePred, h]
    · simp [passOne, List.find?, passOnePred, h, ih]

/-- The second for loop returns the first result accepted by the second-pass
test, in rank order. -/
theorem passTwo_eq_find (rs : List (Option String)) :
    passTwo rs = (rs.find? passTwoPred).map (fun r => r.getD "") := by
  induction rs with
  | nil => rfl
  | cons r rs ih =>
    cases hh : hostname (r.getD "") with
    | none => simp [passTwo, hh, List.find?, passTwoPred]
    | some hst =>
      by_cases hc : BLACKLIST.contains hst
      · have hm : hst ∈ BLACKLIST := by simpa using hc
        simp [passTwo, hh, List.find?, passTwoPred, hm, ih]
      · have hm : hst ∉ BLACKLIST := by simpa using hc
        simp [passTwo, hh, List.find?, passTwoPred, hm]

/-- C7 counterexample: for entity Acme and the single ranked result
https://en.wikipedia.org/wiki/Acme, the source scan accepts the Wikipedia URL
in its second pass, because that pass tests only literal membership of the
hostname in the deny set; under the exact-or-suffix deny matching the claim
states for both passes, the scan would return nothing. -/
theorem spec_C7_counterexample :
    get_brave_homepage "Acme" [some "https://en.wikipedia.org/wiki/Acme"] =
      some "https://en.wikipedia.org/wiki/Acme" ∧
    get_homepage_claimed "Acme" [some "https://en.wikipedia.org/wiki/Acme"] = none := by
  refine ⟨?_, ?_⟩ <;> rfl

/-- C7 amended: the scan is a rank-order two-pass first-match scan; pass one
rejects any host containing a deny-set domain as a substring and requires the
case-insensitive name substring; pass two, consulted only when pass one
yields nothing, rejects exactly the hosts that are literal elements of the
deny set, so a subdomain of a denied host is accepted there. -/
theorem spec_C7_two_pass (company : String) (results : List (Option String)) :
    get_brave_homepage company results = get_homepage_twopass company results := by
  unfold get_brave_homepage get_homepage_twopass
  rw [passOne_eq_find, passTwo_eq_find]
  cases h1 : results.find? (passOnePred company) with
  | none =>
    cases h2 : results.find? passTwoPred with
    | none => simp
    | some r => simp
  | some r => simp

/-- C8: the resolver tries the search-engine strategy first and the knowledge
base second, first truthy result winning; the knowledge-base strategy uses
only the first name-search match, yields nothing on an empty match list, a
missing id, a missing property list or any transport error, and returns the
first property value verbatim when present; when neither strategy yields a
candidate the result is the not-found marker. -/
theorem spec_C8_resolver_chain :
    (∀ (u : String) (w : Option String), u ≠ "" → resolve_homepage (some u) w = u) ∧
    (∀ (v : String), v ≠ "" → resolve_homepage none (some v) = v) ∧
    resolve_homepage none none = "Not found" ∧
    resolve_homepage none (some "") = "Not found" ∧
    (∀ (w : Option String), resolve_homepage (some "") w = resolve_homepage none w) ∧
    (∀ (f : String → Except SrvErr (List (Option String))),
        get_wikidata_homepage (Except.error SrvErr.transport) f = none) ∧
    (∀ (f : String → Except SrvErr (List (Option String))),
        get_wikidata_homepage (Except.ok []) f = none) ∧
    (∀ (t : List (Option String)) (f : String → Except SrvErr (List (Option String))),
        get_wikidata_homepage (Except.ok (none :: t)) f = none) ∧
    (∀ (q : String) (t : List (Option String))
        (f : String → Except SrvErr (List (Option String))) (e : SrvErr),
        f q = Except.error e → get_wikidata_homepage (Except.ok (some q :: t)) f = none) ∧
    (∀ (q : String) (t : List (Option String))
        (f : String → Except SrvErr (List (Option String))),
        f q = Except.ok [] → get_wikidata_homepage (Except.ok (some q :: t)) f = none) ∧
    (∀ (q : String) (t : List (Option String))
        (f : String → Except SrvErr (List (Option String)))
        (v : Option String) (cs : List (Option String)),
        f q = Except.ok (v :: cs) →
        get_wikidata_homepage (Except.ok (some q :: t)) f = v) := by
  refine ⟨?_, ?_, rfl, rfl, ?_, ?_, ?_, ?_, ?_, ?_, ?_⟩
  · intro u w hu
    simp [resolve_homepage, hu]
  · intro v hv
    simp [resolve_homepage, hv]
  · intro w
    rfl
  · intro f
    rfl
  · intro f
    rfl
  · intro t f
    rfl
  · intro q t f e h
    simp [get_wikidata_homepage, h]
  · intro q t f h
    simp [get_wikidata_homepage, h]
  · intro q t f v cs h
    simp [get_wikidata_homepage, h]

/-- C8 witness: a nonempty brave result wins the chain, and the knowledge
base returns the first property value verbatim for the first match. -/
theorem spec_C8_resolver_chain_witness :
    ("https://acme.com" ≠ "" ∧
      resolve_homepage (some "https://acme.com") none = "https://acme.com") ∧
      get_wikidata_homepage (Except.ok [some "Q1"])
          (fun _ => Except.ok [some "https://acme.org/"]) = some "https://acme.org/" := by
  refine ⟨⟨by decide, ?_⟩, ?_⟩
  · exact spec_C8_resolver_chain.1 "https://acme.com" none (by decide)
  · exact spec_C8_resolver_chain.2.2.2.2.2.2.2.2.2.2 "Q1" []
      (fun _ => Except.ok [some "https://acme.org/"]) (some "https://acme.org/") [] rfl

/-- Any PoI list containing an id-less entry makes the formatting loop raise
the KeyError. -/
theorem formatLocList_err (descs : DescPayload) : ∀ (l : List Poi),
    (∃ p ∈ l, p.id = none) →
    formatLocList descs l = Except.error SrvErr.keyError := by
  intro l
  induction l with
  | nil =>
    intro h
    simp at h
  | cons p rest ih =>
    intro h
    rcases h with ⟨q, hq, hqid⟩
    rcases List.mem_cons.mp hq with rfl | hmem
    · simp [formatLocList, buildLocation, hqid]
    · cases hpid : p.id with
      | none => simp [formatLocList, buildLocation, hpid]
      | some s =>
        simp only [formatLocList, buildLocation, hpid]
        rw [ih ⟨q, hmem, hqid⟩]

/-- A PoI list whose entries all carry ids formats without error, one output
record per entry. -/
theorem formatLocList_ok (descs : DescPayload) : ∀ (l : List Poi),
    (∀ p ∈ l, p.id.isSome) →
    ∃ locs, formatLocList descs l = Except.ok locs ∧ locs.length = l.length := by
  intro l
  induction l with
  | nil =>
    intro _
    exact ⟨[], rfl, rfl⟩
  | cons p rest ih =>
    intro h
    obtain ⟨s, hs⟩ := Option.isSome_iff_exists.mp (h p (List.mem_cons_self p rest))
    obtain ⟨locs, hlocs, hlen⟩ := ih (fun q hq => h q (List.mem_cons_of_mem p hq))
    refine ⟨{ name := p.name.getD "N/A", address := format_address p.address, phone := p.phone.getD "N/A", rating := format_rating p.rating, price := p.priceRange.getD "N/A", hours := (let hh := String.intercalate ", " p.openingHours; if hh = "" then "N/A" else hh), description := ((descs.descriptions.lookup s).getD "No description available") } :: locs, ?_, by simp [hlen]⟩
    simp [formatLocList, buildLocation, hs, hlocs]

/-- C9 counterexample: a detail payload holding one PoI without an id makes
the local result formatting fail with the KeyError instead of dropping the
entry. -/
theorem spec_C9_counterexample :
    format_local_results
        ⟨[⟨none, none, none, none, ⟨none, none, none, none⟩, none, []⟩]⟩ ⟨[]⟩ =
      Except.error SrvErr.keyError := rfl

/-- C9 amended: a location entry without an id is dropped silently by the id
extraction, which never fails; but a PoI without an id in the detail payload
makes the result formatting fail with a KeyError instead of being dropped,
while a payload whose PoIs all carry ids formats completely. -/
theorem spec_C9_missing_id :
    (∀ (pre post : List LocEntry) (e : LocEntry), e.id = none →
        extract_location_ids (pre ++ e :: post) = extract_location_ids (pre ++ post)) ∧
    (∀ (pois : PoisPayload) (descs : DescPayload),
        (∃ p ∈ pois.results, p.id = none) →
        format_local_results pois descs = Except.error SrvErr.keyError) ∧
    (∀ (pois : PoisPayload) (descs : DescPayload),
        (∀ p ∈ pois.results, p.id.isSome) →
        ∃ locs, format_local_results pois descs = Except.ok locs ∧
          locs.length = pois.results.length) := by
  refine ⟨?_, ?_, ?_⟩
  · intro pre post e he
    simp [extract_location_ids, List.filter_append, List.filter_cons, he]
  · intro pois descs h
    exact formatLocList_err descs pois.results h
  · intro pois descs h
    exact formatLocList_ok descs pois.results h

/-- C9 witness: an id-less location entry vanishes from the extraction while
its neighbours survive, and an id-less PoI fails the formatting. -/
theorem spec_C9_missing_id_witness :
    ((⟨none⟩ : LocEntry).id = none ∧
      extract_location_ids ([⟨some "a"⟩] ++ (⟨none⟩ : LocEntry) :: [⟨some "b"⟩]) =
        extract_location_ids ([⟨some "a"⟩] ++ [⟨some "b"⟩])) ∧
    format_local_results
        ⟨[⟨none, none, none, none, ⟨none, none, none, none⟩, none, []⟩]⟩ ⟨[]⟩ =
      Except.error SrvErr.keyError := by
  refine ⟨⟨rfl, ?_⟩, ?_⟩
  · exact spec_C9_missing_id.1 [⟨some "a"⟩] [⟨some "b"⟩] ⟨none⟩ rfl
  · exact spec_C9_missing_id.2.1
      ⟨[⟨none, none, none, none, ⟨none, none, none, none⟩, none, []⟩]⟩ ⟨[]⟩
      ⟨⟨none, none, none, none, ⟨none, none, none, none⟩, none, []⟩, by simp, rfl⟩

end BraveSearch
